import Mathlib

/-!
Verification of the tagged-result constructor library (`src/index.ts`).

The library exposes two constructor operations, `ok` and `err`.  Each accepts
either a single payload argument (`args.length === 1`) or a tag suffix followed
by a payload.  The one-argument shape returns `{ type: "SUCCESS", data }`
(resp. `{ type: "ERROR", data }`); the two-argument shape returns
`{ type: "SUCCESS_" + suffix, data }` (resp. `{ type: "ERROR_" + suffix, data }`),
concatenating unconditionally.  The embedding below mirrors those bodies.
-/

namespace TaggedResult

/-- Embedding of the record type `InternalResultType<T, D> = { type: T; data: D }`
from `src/index.ts`: a tagged result pairs a string discriminator with a payload. -/
structure ResultType (D : Type) where
  type : String
  data : D
  deriving DecidableEq

/-- The argument list of a call to `ok` or `err`: the source implementations take
`...args: [D] | [T, D]`, i.e. either a single payload, or a tag suffix followed
by a payload. -/
inductive Args (D : Type) where
  | one (data : D)
  | two (type : String) (data : D)
  deriving DecidableEq

/-- The payload argument of a call: `args[0]` in the one-argument shape and
`args[1]` in the two-argument shape. -/
def Args.payload {D : Type} : Args D → D
  | .one data => data
  | .two _ data => data

/-- Embedding of `function ok(...args)`: when `args.length === 1` it returns
`{ type: "SUCCESS", data: args[0] }`; otherwise it computes
`prefixedType = ` the template literal `SUCCESS_` followed by `args[0]` and
returns `{ type: prefixedType, data: args[1] }`. -/
def ok {D : Type} : Args D → ResultType D
  | .one data => { type := "SUCCESS", data := data }
  | .two type data => { type := "SUCCESS_" ++ type, data := data }

/-- Embedding of `function err(...args)`: when `args.length === 1` it returns
`{ type: "ERROR", data: args[0] }`; otherwise it computes
`prefixedType = ` the template literal `ERROR_` followed by `args[0]` and
returns `{ type: prefixedType, data: args[1] }`. -/
def err {D : Type} : Args D → ResultType D
  | .one data => { type := "ERROR", data := data }
  | .two type data => { type := "ERROR_" ++ type, data := data }

/-- A call to `ok` under the run-time semantics in which a JavaScript call either
returns a value or raises an exception (`Except.error` with the message).  Both
branches of the source body are plain `return` statements and the body contains
no `throw`, so both branches produce `Except.ok`. -/
def evalOk {D : Type} : Args D → Except String (ResultType D)
  | .one data => Except.ok { type := "SUCCESS", data := data }
  | .two type data => Except.ok { type := "SUCCESS_" ++ type, data := data }

/-- A call to `err` under the run-time semantics in which a JavaScript call either
returns a value or raises an exception (`Except.error` with the message).  Both
branches of the source body are plain `return` statements and the body contains
no `throw`, so both branches produce `Except.ok`. -/
def evalErr {D : Type} : Args D → Except String (ResultType D)
  | .one data => Except.ok { type := "ERROR", data := data }
  | .two type data => Except.ok { type := "ERROR_" ++ type, data := data }

/-- A call site producing one tagged result: one of the two operations applied to
one of the two argument shapes (the mixed `ok`/`err` collections of property P5). -/
inductive Call (D : Type) where
  | okCall (args : Args D)
  | errCall (args : Args D)
  deriving DecidableEq

/-- The record a call constructs (every call returns normally, see
`constructors_total`). -/
def Call.result {D : Type} : Call D → ResultType D
  | .okCall a => ok a
  | .errCall a => err a

/-- Two strings with equal character lists are equal. -/
theorem string_eq_of_data_eq {a b : String} (h : a.data = b.data) : a = b := by
  cases a; cases b; exact congrArg String.mk h

/-- String concatenation cancels on the left. -/
theorem string_append_left_cancel {p s1 s2 : String} (h : p ++ s1 = p ++ s2) :
    s1 = s2 := by
  have h2 := congrArg String.data h
  simp only [String.data_append] at h2
  exact string_eq_of_data_eq (List.append_cancel_left h2)

/-- No string extending "SUCCESS" coincides with a string extending "ERROR":
their first characters already differ. -/
theorem success_append_ne_error_append (x y : String) :
    "SUCCESS" ++ x ≠ "ERROR" ++ y := by
  intro h
  have h2 := congrArg String.data h
  simp [String.data_append] at h2

/-- C1: for every non-empty tag suffix `s` and payload `d`, `ok(s, d)` returns the
record whose type is the concatenation `"SUCCESS_" ++ s` and whose data is `d`, and
`err(s, d)` returns the record whose type is `"ERROR_" ++ s` and whose data is `d`. -/
theorem custom_tagging (D : Type) (s : String) (hs : s ≠ "") (d : D) :
    ok (Args.two s d) = { type := "SUCCESS_" ++ s, data := d } ∧
      err (Args.two s d) = { type := "ERROR_" ++ s, data := d } :=
  ⟨rfl, rfl⟩

/-- Witness for C1 at suffix "FOO" and payload 5. -/
theorem custom_tagging_witness :
    ("FOO" : String) ≠ "" ∧
      ok (Args.two "FOO" (5 : Nat)) = { type := "SUCCESS_FOO", data := 5 } ∧
      err (Args.two "FOO" (5 : Nat)) = { type := "ERROR_FOO", data := 5 } :=
  ⟨by decide, (custom_tagging Nat "FOO" (by decide) 5).1,
    (custom_tagging Nat "FOO" (by decide) 5).2⟩

/-- C2: the one-argument call `ok(d)` returns the record with the bare default tag
"SUCCESS" (no trailing separator) and data `d`; symmetrically `err(d)` returns the
record with type exactly "ERROR" and data `d`. -/
theorem default_tagging (D : Type) (d : D) :
    ok (Args.one d) = { type := "SUCCESS", data := d } ∧
      err (Args.one d) = { type := "ERROR", data := d } :=
  ⟨rfl, rfl⟩

/-- Counterexample to C3: the code performs no deduplication, so a custom tag that
already starts with the default tag name yields a doubled prefix
(`err("ERROR_NETWORK", 0)` has type "ERROR_ERROR_NETWORK"), and a custom tag that
starts with the separator yields a doubled separator (`ok("_FOO", 0)` has type
"SUCCESS__FOO") — both outcomes the claim says can never occur. -/
theorem no_double_separator_cex :
    err (Args.two "ERROR_NETWORK" (0 : Nat)) =
        { type := "ERROR_ERROR_NETWORK", data := 0 } ∧
      ok (Args.two "_FOO" (0 : Nat)) = { type := "SUCCESS__FOO", data := 0 } :=
  ⟨rfl, rfl⟩

/-- C3 amended: in the two-argument forms the constructor inserts exactly one
separator between the default tag and the suffix and uses the suffix verbatim,
with no deduplication: the resulting type is always `defaultTag ++ "_" ++ s`.  In
particular `ok("FOO", d)` gives exactly "SUCCESS_FOO", while a suffix that itself
starts with the default tag name or the separator produces a doubled prefix or
separator in the result. -/
theorem separator_inserted_once (D : Type) (s : String) (d : D) :
    (ok (Args.two s d)).type = "SUCCESS" ++ "_" ++ s ∧
      (err (Args.two s d)).type = "ERROR" ++ "_" ++ s :=
  ⟨rfl, rfl⟩

/-- Counterexample to C4: `err("", 1)` does not raise a usage error; it returns
normally with the record `{ type: "ERROR_", data: 1 }`. -/
theorem empty_suffix_error_cex :
    evalErr (Args.two "" (1 : Nat)) = Except.ok { type := "ERROR_", data := 1 } :=
  rfl

/-- C4 amended: supplying the empty string as the tag suffix raises no error and is
not rejected or defaulted: the call returns the record whose type is the default
tag followed by a trailing separator ("ERROR_" resp. "SUCCESS_") and whose data is
the payload. -/
theorem empty_suffix_no_error (D : Type) (d : D) :
    evalErr (Args.two "" d) = Except.ok { type := "ERROR_", data := d } ∧
      evalOk (Args.two "" d) = Except.ok { type := "SUCCESS_", data := d } :=
  ⟨rfl, rfl⟩

/-- C5: `ok` and `err` are total over both documented argument shapes: every call,
for every string tag suffix (of any casing, lowercase included) and every payload,
terminates normally and returns the tagged record, raising no runtime validation
error — the run-time result never depends on the casing of the suffix being
accepted or rejected, because no argument list is ever rejected. -/
theorem constructors_total (D : Type) (args : Args D) :
    evalOk args = Except.ok (ok args) ∧ evalErr args = Except.ok (err args) := by
  cases args <;> exact ⟨rfl, rfl⟩

/-- C6: for either call shape the data field of the constructed result is exactly
the payload argument that was passed, for an arbitrary payload type — the
constructor never inspects or transforms it. -/
theorem payload_passthrough (D : Type) (args : Args D) :
    (ok args).data = args.payload ∧ (err args).data = args.payload := by
  cases args <;> exact ⟨rfl, rfl⟩

/-- C9: calling the two-argument form with the empty suffix does not raise and
returns the default tag followed by a trailing separator: `ok("", d)` is
`{ type: "SUCCESS_", data: d }` and `err("", d)` is `{ type: "ERROR_", data: d }`. -/
theorem empty_suffix_trailing_separator (D : Type) (d : D) :
    ok (Args.two "" d) = { type := "SUCCESS_", data := d } ∧
      err (Args.two "" d) = { type := "ERROR_", data := d } ∧
      evalOk (Args.two "" d) = Except.ok (ok (Args.two "" d)) ∧
      evalErr (Args.two "" d) = Except.ok (err (Args.two "" d)) :=
  ⟨rfl, rfl, rfl, rfl⟩

/-- C7: in a collection of tagged results produced by mixed `ok`/`err` calls whose
derived tags are pairwise distinct, filtering by equality of the type field
against the tag of one of the calls selects exactly the result of that call:
no result with a different tag is selected and the matching one is not missed. -/
theorem discrimination (D : Type) (calls : List (Call D)) (c : Call D)
    (hc : c ∈ calls)
    (hdist : (calls.map fun x => (Call.result x).type).Nodup) :
    (calls.map Call.result).filter (fun r => r.type == (Call.result c).type) =
      [Call.result c] := by
  induction calls with
  | nil => cases hc
  | cons x xs ih =>
    rw [List.map_cons, List.nodup_cons] at hdist
    obtain ⟨hnotin, hnd⟩ := hdist
    rcases List.mem_cons.mp hc with hcx | hcxs
    · subst hcx
      rw [List.map_cons, List.filter_cons_of_pos (by simp)]
      have htail : (xs.map Call.result).filter
          (fun r => r.type == (Call.result c).type) = [] := by
        rw [List.filter_eq_nil_iff]
        intro r hr
        obtain ⟨y, hy, rfl⟩ := List.mem_map.mp hr
        simp only [beq_iff_eq]
        intro heq
        exact hnotin (heq ▸ List.mem_map_of_mem (fun z => (Call.result z).type) hy)
      rw [htail]
    · have hne : ((Call.result x).type == (Call.result c).type) = false := by
        simp only [beq_eq_false_iff_ne, ne_eq]
        intro heq
        exact hnotin (heq ▸ List.mem_map_of_mem (fun z => (Call.result z).type) hcxs)
      rw [List.map_cons, List.filter_cons_of_neg (by simp [hne])]
      exact ih hcxs hnd

/-- Witness for C7: three mixed calls with distinct tags; filtering on "ERROR_NET"
selects exactly the result of the err call that derived it. -/
theorem discrimination_witness :
    (([Call.okCall (Args.one 1), Call.errCall (Args.two "NET" 2),
        Call.okCall (Args.two "X" 3)] : List (Call Nat)).map Call.result).filter
        (fun r => r.type == "ERROR_NET") =
      [{ type := "ERROR_NET", data := 2 }] :=
  discrimination Nat
    [Call.okCall (Args.one 1), Call.errCall (Args.two "NET" 2),
      Call.okCall (Args.two "X" 3)]
    (Call.errCall (Args.two "NET" 2)) (by decide) (by decide)

/-- C8: every result of `ok`, under either call shape, has a type extending
"SUCCESS" and never one extending "ERROR"; every result of `err` has a type
extending "ERROR" and never one extending "SUCCESS" — so no `ok` value carries an
err-family tag and vice versa. -/
theorem family_tags (D : Type) (args : Args D) :
    (∃ t, (ok args).type = "SUCCESS" ++ t) ∧
      (∀ t, (ok args).type ≠ "ERROR" ++ t) ∧
      (∃ t, (err args).type = "ERROR" ++ t) ∧
      (∀ t, (err args).type ≠ "SUCCESS" ++ t) := by
  cases args with
  | one d =>
    refine ⟨⟨"", rfl⟩, ?_, ⟨"", rfl⟩, ?_⟩
    · intro t h
      exact success_append_ne_error_append "" t h
    · intro t h
      exact success_append_ne_error_append t "" h.symm
  | two s d =>
    refine ⟨⟨"_" ++ s, rfl⟩, ?_, ⟨"_" ++ s, rfl⟩, ?_⟩
    · intro t h
      exact success_append_ne_error_append ("_" ++ s) t h
    · intro t h
      exact success_append_ne_error_append t ("_" ++ s) h.symm

/-- C10: tag derivation is injective: distinct non-empty suffixes derive distinct
tags within each family, and a two-argument call never produces the bare default
tag of the one-argument form. -/
theorem tag_injective (D : Type) (s1 s2 : String) (hs1 : s1 ≠ "") (hs2 : s2 ≠ "")
    (hne : s1 ≠ s2) (d1 d2 : D) (s : String) (hs : s ≠ "") (d : D) :
    (ok (Args.two s1 d1)).type ≠ (ok (Args.two s2 d2)).type ∧
      (err (Args.two s1 d1)).type ≠ (err (Args.two s2 d2)).type ∧
      (ok (Args.two s d)).type ≠ "SUCCESS" ∧
      (err (Args.two s d)).type ≠ "ERROR" := by
  refine ⟨fun h => hne (string_append_left_cancel h),
    fun h => hne (string_append_left_cancel h), ?_, ?_⟩
  · intro h
    have h2 : ("SUCCESS_" ++ s).data.length = ("SUCCESS" : String).data.length :=
      congrArg (fun x => x.data.length) h
    rw [String.data_append, List.length_append] at h2
    have h8 : ("SUCCESS_" : String).data.length = 8 := rfl
    have h7 : ("SUCCESS" : String).data.length = 7 := rfl
    omega
  · intro h
    have h2 : ("ERROR_" ++ s).data.length = ("ERROR" : String).data.length :=
      congrArg (fun x => x.data.length) h
    rw [String.data_append, List.length_append] at h2
    have h6 : ("ERROR_" : String).data.length = 6 := rfl
    have h5 : ("ERROR" : String).data.length = 5 := rfl
    omega

/-- Witness for C10 at suffixes "A", "B", "C" and payload 0. -/
theorem tag_injective_witness :
    ("A" : String) ≠ "" ∧ ("B" : String) ≠ "" ∧ ("A" : String) ≠ "B" ∧
      ("C" : String) ≠ "" ∧
      ((ok (Args.two "A" (0 : Nat))).type ≠ (ok (Args.two "B" (0 : Nat))).type ∧
        (err (Args.two "A" (0 : Nat))).type ≠ (err (Args.two "B" (0 : Nat))).type ∧
        (ok (Args.two "C" (0 : Nat))).type ≠ "SUCCESS" ∧
        (err (Args.two "C" (0 : Nat))).type ≠ "ERROR") :=
  ⟨by decide, by decide, by decide, by decide,
    tag_injective Nat "A" "B" (by decide) (by decide) (by decide) 0 0 "C" (by decide) 0⟩

end TaggedResult
